import Mathlib

/-!
# Verification of the pathspider measurement core

Shallow embedding of the repository's four source files:
- `src/pathspider/plugins/tfospider.py` (TFO option parser, TFO progress
  state machine, `TFOSpider.connect`, `TFOSpider.merge`),
- `src/ecnspider2/ecnspider.py` (`EcnSpider2.connect`, `tupleize_flow`,
  `EcnSpider2.merge`),
- `src/pathspider/client/resolver.py` (`take`, `ResolverClient._fetch_result`).

Python semantics are made explicit: machine reads that can fail are modelled
with `Except PyErr`, potentially non-terminating loops carry a fuel argument
(`none` = the loop has not terminated within the given fuel), and Python's
dynamic values are modelled with small sum types.
-/

/-- Python exception classes that the embedded code can raise. -/
inductive PyErr
  | indexError
  | typeError
  | attributeError
  | keyError
  | nameError
deriving DecidableEq, Repr

/-- Read `l[i]` on a Python list/bytes object: `IndexError` when out of range.
(No negative indices occur in the embedded code: every index is a sum of
non-negative values.) -/
def pyIdx (l : List Nat) (i : Nat) : Except PyErr Nat :=
  if h : i < l.length then .ok (l.get ⟨i, h⟩) else .error .indexError

/-- The values `_tfocookie` can return: Python `None`, a pair `(0, kind)`
(truthy, "cookie present"), or `False`. -/
inductive TfoRet
  | nothing
  | cookiePair (a b : Nat)
  | fls
deriving DecidableEq, Repr

/-- Python `bool(...)` of a `_tfocookie` return value: `None` and `False`
are falsy, a tuple is truthy. -/
def TfoRet.toBool : TfoRet → Bool
  | .cookiePair _ _ => true
  | _ => false

/-- The Python variable `options` inside `_tfocookie`: normally a byte
buffer, but the line `options = options[cp+1]` (source line 74) rebinds it
to an integer. -/
inductive OptsVal
  | buf (l : List Nat)
  | intVal (n : Nat)
deriving DecidableEq, Repr

/-- The `while True` loop of `_tfocookie` (tfospider.py lines 47-83), one
constructor branch per source line, indices checked by `pyIdx`.
The statement at lines 70-77 (`if options[0] == 254: ... else: ...` with the
generic skip rule at lines 78-83 as its `else`) is reachable both when
`options[cp]` is 253 with a non-matching magic tag (fall-through out of the
253 block) and when `options[cp]` is none of 0/1/34/253; the block appears
twice below, once per entry path, exactly as control reaches it.
`fuel` bounds the number of loop iterations; `none` means the loop did not
terminate within `fuel` steps. -/
def tfocookieLoop : Nat → OptsVal → Nat → Option (Except PyErr TfoRet)
  | 0, _, _ => none
  | _fuel+1, .intVal n, _cp =>
      -- after `options = options[cp+1]`: `if not options` is true only for 0;
      -- otherwise `options[cp]` subscripts an int and raises TypeError
      if n = 0 then some (.ok .nothing) else some (.error .typeError)
  | fuel+1, .buf l, cp =>
      if l.isEmpty then some (.ok .nothing)          -- line 48: if not options
      else match pyIdx l cp with
      | .error e => some (.error e)
      | .ok b0 =>
        if b0 = 0 then some (.ok .nothing)           -- line 50: end of options
        else if b0 = 1 then                          -- line 52: NOP
          tfocookieLoop fuel (.buf l) (cp+1)
        else if b0 = 34 then                         -- line 55: IANA TFO option
          match pyIdx l (cp+1) with
          | .error e => some (.error e)
          | .ok b1 =>
            if b1 = 2 then tfocookieLoop fuel (.buf l) (cp+2)
            else some (.ok (.cookiePair 0 34))
        else if b0 = 253 then                        -- line 62: experimental 253
          match pyIdx l (cp+2) with
          | .error e => some (.error e)
          | .ok m1 =>
            match pyIdx l (cp+3) with
            | .error e => some (.error e)
            | .ok m2 =>
              if m1 = 249 ∧ m2 = 137 then
                match pyIdx l (cp+1) with
                | .error e => some (.error e)
                | .ok b1 =>
                  if b1 ≤ 4 then tfocookieLoop fuel (.buf l) (cp+b1)
                  else some (.ok (.cookiePair 0 253))
              else
                -- fall through to the `options[0] == 254` statement (line 70)
                match pyIdx l 0 with
                | .error e => some (.error e)
                | .ok o0 =>
                  if o0 = 254 then
                    match pyIdx l (cp+2) with
                    | .error e => some (.error e)
                    | .ok n1 =>
                      match pyIdx l (cp+3) with
                      | .error e => some (.error e)
                      | .ok n2 =>
                        if n1 = 249 ∧ n2 = 137 then
                          match pyIdx l (cp+1) with
                          | .error e => some (.error e)
                          | .ok b1 =>
                            if b1 ≤ 4 then tfocookieLoop fuel (.intVal b1) cp
                            else some (.ok (.cookiePair 0 254))
                        else
                          -- no branch taken: loop body ends, state unchanged
                          tfocookieLoop fuel (.buf l) cp
                  else                               -- line 78: generic rule
                    match pyIdx l (cp+1) with
                    | .error e => some (.error e)
                    | .ok b1 =>
                      if b1 ≤ l.length then some (.ok .fls)
                      else tfocookieLoop fuel (.buf l) (cp + b1)
        else
          -- kinds other than 0/1/34/253 reach the `options[0] == 254`
          -- statement directly (line 70)
          match pyIdx l 0 with
          | .error e => some (.error e)
          | .ok o0 =>
            if o0 = 254 then
              match pyIdx l (cp+2) with
              | .error e => some (.error e)
              | .ok n1 =>
                match pyIdx l (cp+3) with
                | .error e => some (.error e)
                | .ok n2 =>
                  if n1 = 249 ∧ n2 = 137 then
                    match pyIdx l (cp+1) with
                    | .error e => some (.error e)
                    | .ok b1 =>
                      if b1 ≤ 4 then tfocookieLoop fuel (.intVal b1) cp
                      else some (.ok (.cookiePair 0 254))
                  else tfocookieLoop fuel (.buf l) cp
            else                                     -- line 78: generic rule
              match pyIdx l (cp+1) with
              | .error e => some (.error e)
              | .ok b1 =>
                if b1 ≤ l.length then some (.ok .fls)
                else tfocookieLoop fuel (.buf l) (cp + b1)

/-- A TCP segment as seen through python-libtrace: the fields of `tcp`
that the embedded code reads. -/
structure TcpSeg where
  data : List Nat
  doff : Nat
  src_port : Nat
  seq_nbr : Nat
  ack_nbr : Nat
deriving DecidableEq, Repr

/-- Slice `options = tcp.data[20:tcp.doff*4]` (tfospider.py line 44); Python
slicing clamps out-of-range bounds. -/
def tcpOptions (tcp : TcpSeg) : List Nat :=
  (tcp.data.take (tcp.doff * 4)).drop 20

/-- Embedding of `_tfocookie(tcp)` (tfospider.py lines 39-84). -/
def tfocookie (fuel : Nat) (tcp : TcpSeg) : Option (Except PyErr TfoRet) :=
  tfocookieLoop fuel (.buf (tcpOptions tcp)) 0

/-- The fields of the per-flow record dictionary that the TFO chain
functions touch.  `sp` is the flow's source port, seeded by `basic_flow`
(in `pathspider.observer`, outside this repository) from the first packet
of the flow; `tfo_seq`, `tfo_len`, `tfoworking` are seeded by `tfosetup`.
`tfo_seq`/`tfo_len` are Python ints that the code sets to negative
sentinels, hence `Int`. -/
structure TfoRec where
  sp : Nat
  tfo_seq : Int
  tfo_len : Int
  tfoworking : Nat
deriving DecidableEq, Repr

/-- Embedding of `tfosetup(rec, ip)` (tfospider.py lines 33-37): seeds the TFO fields of
a fresh flow record whose source port is `sp`. -/
def tfosetup (sp : Nat) : TfoRec :=
  { sp := sp, tfo_seq := -1000, tfo_len := -1000, tfoworking := 0 }

/-- Embedding of `tfoworking(rec, tcp, rev)` (tfospider.py lines 86-111).  Returns the
updated record and the handler's boolean (`true` = keep tracking the flow).
The call `bool(_tfocookie(tcp))` (line 90) happens first: an exception it
raises propagates (`Except.error`), and if it does not terminate neither
does the handler (`none`).  Python's `&` on booleans equals `and`, and each
`if` body ends in `return`, so the chain is an if/else-if cascade. -/
def tfoworking (fuel : Nat) (rec : TfoRec) (tcp : TcpSeg) :
    Option (Except PyErr (TfoRec × Bool)) :=
  -- outgoing = (rec['sp'] == tcp.src_port), written `rec.sp = tcp.src_port`
  -- has_cookie = bool(_tfocookie(tcp)), written `ret.toBool = true`
  -- has_data = (data_len > 0), written `0 < data_len`
  let data_len : Int := (tcp.data.length : Int) - (tcp.doff * 4 : Int)
  match tfocookie fuel tcp with
  | none => none
  | some (.error e) => some (.error e)
  | some (.ok ret) =>
    if rec.tfo_seq < 0 ∧ ¬ret.toBool = true then  -- line 93: no TFO data sent or received
      some (.ok (rec, true))
    else if ret.toBool = true ∧ 0 < data_len ∧
        rec.sp = tcp.src_port then  -- line 96: TFO data sent
      some (.ok ({ rec with tfo_seq := (tcp.seq_nbr : Int), tfo_len := data_len,
                            tfoworking := 1 }, true))
    else if ¬rec.sp = tcp.src_port ∧ rec.tfo_seq > 0 ∧
        (tcp.ack_nbr : Int) = rec.tfo_seq + rec.tfo_len + 1 then  -- line 102: acknowledged
      some (.ok ({ rec with tfoworking := 2 }, false))
    else if rec.sp = tcp.src_port ∧ 0 < data_len ∧
        (tcp.seq_nbr : Int) = rec.tfo_seq + 1 then  -- line 106: TCP fall back
      some (.ok ({ rec with tfo_seq := -500, tfo_len := -500 }, true))
    else
      some (.ok (rec, true))

/-- Values stored in the flow dictionaries handled by `TFOSpider.merge`. -/
inductive DVal
  | natV (n : Nat)
  | boolV (b : Bool)
  | strV (s : String)
deriving DecidableEq, Repr

/-- Python dict assignment `d[k] = v`: replace an existing binding for `k`,
otherwise append it. -/
def dictSet (d : List (String × DVal)) (k : String) (v : DVal) :
    List (String × DVal) :=
  if d.any (fun p => p.1 == k) then
    d.map (fun p => if p.1 == k then (k, v) else p)
  else d ++ [(k, v)]

/-- The `SpiderRecord` of tfospider.py (line 18): the Active Record a worker
produces. -/
structure TfoSpiderRecord where
  ip : Nat
  rport : Nat
  port : Nat
  host : String
  tfostate : Nat
  connstate : Bool
  rank : Nat
deriving DecidableEq, Repr

/-- The `flow` argument of `TFOSpider.merge`: either the `NO_FLOW` sentinel
(imported from `pathspider.base`, standing for "no matching Flow Record was
captured") or an observed flow dictionary. -/
inductive TfoFlowArg
  | noFlow
  | flowDict (d : List (String × DVal))
deriving DecidableEq, Repr

/-- Embedding of `TFOSpider.merge(flow, res)` (tfospider.py lines 234-246): the
dictionary the method puts on `self.outqueue`. -/
def tfoMerge (flow : TfoFlowArg) (res : TfoSpiderRecord) :
    List (String × DVal) :=
  match flow with
  | .noFlow =>
      [("dip", .natV res.ip), ("sp", .natV res.port), ("dp", .natV res.rport),
       ("connstate", .boolV res.connstate), ("tfostate", .natV res.tfostate),
       ("observed", .boolV false)]
  | .flowDict d =>
      dictSet (dictSet (dictSet (dictSet (dictSet d
        "connstate" (.boolV res.connstate))
        "host" (.strV res.host))
        "rank" (.natV res.rank))
        "tfostate" (.natV res.tfostate))
        "observed" (.boolV true)

/-- Python attribute lookup `self.<name>` over the set of numeric attributes
an object carries: `AttributeError` when the attribute was never assigned. -/
def pyGetattr (attrs : List (String × Nat)) (name : String) : Except PyErr Nat :=
  match attrs.lookup name with
  | some v => .ok v
  | none => .error .attributeError

/-- The numeric attributes assigned by `EcnSpider2.__init__`
(ecnspider.py lines 67-76) together with those its base-class call
`super().__init__(worker_count, interface_uri, qof_port)` can assign from
its arguments (qofspider is outside this repository; the names of the
non-numeric attributes `result_sink`/`interface_uri` are irrelevant to the
lookups performed by `connect`). -/
def ecnInitAttrs (worker_count conn_timeout local_ip4 local_ip6 qof_port : Nat) :
    List (String × Nat) :=
  [("worker_count", worker_count), ("qof_port", qof_port),
   ("conn_timeout", conn_timeout),
   ("local_ip4", local_ip4), ("local_ip6", local_ip6)]

/-- Behaviour of the underlying `client.connect()` call: succeeds, times
out, or fails with an `OSError`. -/
inductive SockRes
  | ok (localPort : Nat)
  | timeoutErr
  | osErr
deriving DecidableEq, Repr

/-- Result of a `connect` implementation: the `(client, port, state)`
triple, with states OK = 0, FAILED = 1, TIMEOUT = 2 (ecnspider.py
lines 52-54). -/
structure EcnConnection where
  hasClient : Bool
  port : Option Nat
  state : Nat
deriving DecidableEq, Repr

/-- Embedding of `EcnSpider2.connect(job, pcs, config)` (ecnspider.py lines 78-88).
The first expression evaluated is
`http.client.HTTPConnection(job.ip, timeout=self.conn_imeout)`: the
attribute read `self.conn_imeout` happens before the `try` block.  Inside
the `try`: `except socket.timeout` evaluates the name `socket`, which this
module never imports (NameError); `except OSError` returns
`Connection(None, None, Connection.FAIL)`, and `Connection.FAIL` is an
attribute the namedtuple was never given (lines 52-54 define OK, FAILED,
TIMEOUT), raising AttributeError. -/
def ecnConnect (attrs : List (String × Nat)) (ev : SockRes) :
    Except PyErr EcnConnection :=
  match pyGetattr attrs "conn_imeout" with
  | .error e => .error e
  | .ok _timeout =>
    match ev with
    | .ok p => .ok { hasClient := true, port := some p, state := 0 }
    | .timeoutErr => .error .nameError
    | .osErr => .error .attributeError

/-- The `FlowRecord` of ecnspider.py (line 59). -/
structure EcnFlowRecord where
  ip : Nat
  port : Nat
  octets : Nat
  fif : Nat
  fsf : Nat
  fuf : Nat
  fir : Nat
  fsr : Nat
  fur : Nat
deriving DecidableEq, Repr

/-- The `SpiderRecord` of ecnspider.py (line 56). -/
structure EcnSpiderRecord where
  ip : Nat
  host : Nat
  port : Nat
  ecnstate : Nat
  connstate : Bool
  httpstatus : Nat
deriving DecidableEq, Repr

/-- The `MergedRecord` of ecnspider.py (line 62). -/
structure EcnMergedRecord where
  ip : Nat
  host : Nat
  ecnstate : Nat
  connstate : Bool
  httpstatus : Nat
  octets : Nat
  fif : Nat
  fsf : Nat
  fuf : Nat
  fir : Nat
  fsr : Nat
  fur : Nat
deriving DecidableEq, Repr

/-- The `flow` argument of `EcnSpider2.merge`: either an actual
`FlowRecord` or the unobserved-placeholder sentinel, which is not a
`FlowRecord` and carries none of its fields. -/
inductive EcnFlowArg
  | noFlow
  | flowRec (r : EcnFlowRecord)
deriving DecidableEq, Repr

/-- Embedding of `EcnSpider2.merge(flow, res)` (ecnspider.py lines 177-181): reads
`flow.octets`, `flow.fif`, ... unconditionally, so on the placeholder the
attribute access raises and nothing reaches `result_sink`; on a
`FlowRecord` it hands the `MergedRecord` to the sink. -/
def ecnMerge (flow : EcnFlowArg) (res : EcnSpiderRecord) :
    Except PyErr EcnMergedRecord :=
  match flow with
  | .noFlow => .error .attributeError
  | .flowRec r =>
      .ok { ip := res.ip, host := res.host, ecnstate := res.ecnstate,
            connstate := res.connstate, httpstatus := res.httpstatus,
            octets := r.octets, fif := r.fif, fsf := r.fsf, fuf := r.fuf,
            fir := r.fir, fsr := r.fsr, fur := r.fur }

/-- An IPFIX flow dictionary as consumed by `EcnSpider2.tupleize_flow`:
one optional field per key the method reads (`none` = the key is absent,
so reading it raises KeyError). -/
structure QofFlowDict where
  protocolIdentifier : Option Nat
  destinationTransportPort : Option Nat
  initialTCPFlags : Option Nat
  sourceIPv4Address : Option Nat
  destinationIPv4Address : Option Nat
  sourceIPv6Address : Option Nat
  destinationIPv6Address : Option Nat
  lastSynTCPFlags : Option Nat
  qofTcpCharacteristics : Option Nat
  unionTCPFlags : Option Nat
  reverseInitialTCPFlags : Option Nat
  reverseLastSynTCPFlags : Option Nat
  reverseQofTcpCharacteristics : Option Nat
  reverseUnionTCPFlags : Option Nat
  sourceTransportPort : Option Nat
  reverseTransportOctetDeltaCount : Option Nat
deriving DecidableEq, Repr

/-- Dict read `flow[k]`: KeyError when absent. -/
def dget (v : Option Nat) : Except PyErr Nat :=
  match v with
  | some n => .ok n
  | none => .error .keyError

/-- Embedding of `EcnSpider2.tupleize_flow(flow)` (ecnspider.py lines 136-175).
`Except.ok none` models `return None` (flow discarded).  The first three
checks sit in a `try` whose bare `except` returns `None`; the remainder is
outside it, so a KeyError there propagates.  Line 143 tests the truthiness
of `flow["initialTCPFlags"] | TCP_RST` with `TCP_RST = 0x04`.  (The
source's lines 153-154 contain an unbalanced parenthesis; they are embedded
with the only reading the surrounding tokens admit, an `elif` on the IPv6
source address.) -/
def tupleizeShortCircuit (flow : QofFlowDict) : Except PyErr Bool :=
  -- try-block (lines 138-146): `.ok true` models an early `return None`
  match flow.protocolIdentifier with
  | none => .error .keyError
  | some proto =>
    if proto ≠ 6 then .ok true
    else match flow.destinationTransportPort with
    | none => .error .keyError
    | some dport =>
      if dport ≠ 80 then .ok true
      else match flow.initialTCPFlags with
      | none => .error .keyError
      | some fl =>
        if fl ||| 4 ≠ 0 then .ok true else .ok false

def tupleize_flow (local_ip4 local_ip6 : Nat) (flow : QofFlowDict) :
    Except PyErr (Option EcnFlowRecord) :=
  match tupleizeShortCircuit flow with
  | .error _ => .ok none        -- line 145: except: return None
  | .ok true => .ok none
  | .ok false =>
    -- source-address selection (lines 150-157)
    let ipSel : Except PyErr (Option Nat) :=
      if flow.sourceIPv4Address = some local_ip4 then
        dget flow.destinationIPv4Address |>.map some
      else if flow.sourceIPv6Address = some local_ip6 then
        dget flow.destinationIPv6Address |>.map some
      else .ok none
    match ipSel with
    | .error e => .error e
    | .ok none => .ok none      -- line 157: return None
    | .ok (some ip) =>
      -- flag merge (lines 160-169); note the code reads the keys
      -- "lastSynTCPFlags"/"reverseLastSynTCPFlags" (capital TCP), which are
      -- not among the template names it exports (lines 131-132 export
      -- lastSynTcpFlags), so on a template-shaped dict these raise KeyError
      match dget flow.initialTCPFlags with
      | .error e => .error e
      | .ok fif =>
        match dget flow.lastSynTCPFlags, dget flow.qofTcpCharacteristics with
        | .error e, _ => .error e
        | _, .error e => .error e
        | .ok lsf, .ok qc =>
          let fsf := lsf ||| (qc &&& 0xFF00)
          match dget flow.unionTCPFlags with
          | .error e => .error e
          | .ok uf =>
            let fuf := uf ||| ((qc &&& 0xFF) <<< 8)
            match dget flow.reverseInitialTCPFlags with
            | .error e => .error e
            | .ok fir =>
              match dget flow.reverseLastSynTCPFlags,
                    dget flow.reverseQofTcpCharacteristics with
              | .error e, _ => .error e
              | _, .error e => .error e
              | .ok rlsf, .ok rqc =>
                let fsr := rlsf ||| (rqc &&& 0xFF00)
                match dget flow.reverseUnionTCPFlags with
                | .error e => .error e
                | .ok ruf =>
                  let fur := ruf ||| ((rqc &&& 0xFF) <<< 8)
                  match dget flow.sourceTransportPort,
                        dget flow.reverseTransportOctetDeltaCount with
                  | .error e, _ => .error e
                  | _, .error e => .error e
                  | .ok sport, .ok octets =>
                    .ok (some { ip := ip, port := sport, octets := octets,
                                fif := fif, fsf := fsf, fuf := fuf,
                                fir := fir, fsr := fsr, fur := fur })

/-- Environment for `TFOSpider.connect`: the outcome of the socket call in
the step that returns (`sock.connect` for config 0, the second `sendto` for
config 1), and the local port `sock.getsockname()[1]` reports in the
exception branches. -/
structure TfoConnEnv where
  res : SockRes
  exnPort : Nat
deriving DecidableEq, Repr

/-- The `Connection` of tfospider.py (line 17), with `CONN_OK = 0`,
`CONN_FAILED = 1`, `CONN_TIMEOUT = 2` (lines 22-24). -/
structure TfoConnection where
  port : Nat
  state : Nat
deriving DecidableEq, Repr

/-- Embedding of `TFOSpider.connect(job, pcs, config)` (tfospider.py lines 158-200).
For both configs the returning `try` catches exactly `TimeoutError` and
`OSError`, mapping them to CONN_TIMEOUT and CONN_FAILED; the cookie-request
step of config 1 sits under a bare `except: pass` and cannot change the
outcome.  For a config other than 0 and 1 the function falls off the end
and returns Python `None` (modelled `none`). -/
def tfoConnect (env : TfoConnEnv) (config : Nat) : Option TfoConnection :=
  if config = 0 ∨ config = 1 then
    some (match env.res with
      | .ok p => { port := p, state := 0 }
      | .timeoutErr => { port := env.exnPort, state := 2 }
      | .osErr => { port := env.exnPort, state := 1 })
  else
    none

/-- Embedding of `take(count, iterable)` (resolver.py lines 28-36): the loop body over
`index in range(0, count)`, including the dead `if index >= count: break`
test.  Returns the list of yielded elements and whether the generator ended
by raising (`next` on an exhausted iterator) rather than by finishing the
range. -/
def takeGo (count : Nat) : List Nat → List Nat → List Nat × Bool
  | [], _ => ([], false)
  | index :: rest, xs =>
    if index ≥ count then ([], false)
    else match xs with
      | [] => ([], true)
      | x :: xt =>
        let r := takeGo count rest xt
        (x :: r.1, r.2)

/-- Embedding of `take(count, iterable)` (resolver.py lines 28-36) on a finite iterable. -/
def take (count : Nat) (xs : List Nat) : List Nat × Bool :=
  takeGo count (List.range count) xs

/-- What `self.client.result_for(token)` yields on one poll
(resolver.py lines 63-76). -/
inductive PollRes
  | receipt
  | exc
  | result (addrs : List Nat)
  | other
deriving DecidableEq, Repr

/-- Environment of one `_fetch_result` call: `clock i` is the value
`time.time()` returns during iteration `i`, `refreshOk i` tells whether
`retrieve_capabilities` succeeds then (its failure is printed and
swallowed), and `poll i` is that iteration's `result_for` outcome. -/
structure FetchEnv where
  clock : Nat → Nat
  refreshOk : Nat → Bool
  poll : Nat → PollRes

/-- How `_fetch_result` ends: `raise TimeoutException` (line 81),
`return None` on an mplane Exception (line 67), or `return addrs`
(line 73). -/
inductive FetchOut
  | raiseTimeout
  | retNone
  | retAddrs (addrs : List Nat)
deriving DecidableEq, Repr

/-- Number of iterations of the `while time_spent < request_timeout` loop
(resolver.py line 51): `time_spent` starts at 0 and grows by exactly 5 per
iteration, so the body runs for `time_spent = 5*i` while `5*i <
request_timeout`, i.e. ⌈request_timeout/5⌉ times. -/
def fetchIters (request_timeout : Nat) : Nat := (request_timeout + 4) / 5

/-- Body of `ResolverClient._fetch_result` (resolver.py lines 49-81),
unrolled over the remaining iteration count `k`; `i` is the current
iteration index and `last_updated` the field `self.last_updated`.  Returns
the outcome together with the list of successful capability-refresh
timestamps (the successive values assigned to `self.last_updated` at
line 58), recorded to state the throttling property. -/
def fetchGo (env : FetchEnv) : Nat → Nat → Nat → FetchOut × List Nat
  | 0, _, _ => (.raiseTimeout, [])
  | k+1, i, last_updated =>
    let now := env.clock i
    -- line 55: refresh only when last_updated + 5 < time.time(); a raise in
    -- retrieve_capabilities is caught and leaves last_updated unchanged
    let refreshed : Bool := decide (last_updated + 5 < now) && env.refreshOk i
    let lu2 := if refreshed then now else last_updated
    let rest :=
      match env.poll i with
      | .exc => (FetchOut.retNone, ([] : List Nat))
      | .result addrs => (FetchOut.retAddrs addrs, ([] : List Nat))
      | .receipt => fetchGo env k (i+1) lu2
      | .other => fetchGo env k (i+1) lu2
    (rest.1, if refreshed then now :: rest.2 else rest.2)

/-- Embedding of `ResolverClient._fetch_result(token, request_timeout)` (resolver.py
lines 49-81), starting from `self.last_updated = last_updated0`. -/
def fetch_result (env : FetchEnv) (request_timeout last_updated0 : Nat) :
    FetchOut × List Nat :=
  fetchGo env (fetchIters request_timeout) 0 last_updated0

/-! ## Helper lemmas -/

/-- Any value or-ed with the RST mask 0x04 is nonzero, so the truthiness
test at ecnspider.py line 143 always succeeds. -/
theorem or_four_ne_zero (f : Nat) : f ||| 4 ≠ 0 := by
  intro h
  have hbit := congrArg (fun n => Nat.testBit n 2) h
  simp [Nat.testBit_or] at hbit
  exact absurd hbit.2 (by decide)

/-- The try-block of `tupleize_flow` never reaches its fall-through case:
every path either raises KeyError or returns early. -/
theorem tupleizeShortCircuit_ne_false (flow : QofFlowDict) :
    tupleizeShortCircuit flow ≠ .ok false := by
  unfold tupleizeShortCircuit
  cases flow.protocolIdentifier with
  | none => simp
  | some proto =>
    by_cases h6 : proto = 6 <;> simp [h6]
    cases flow.destinationTransportPort with
    | none => simp
    | some dport =>
      by_cases h80 : dport = 80 <;> simp [h80]
      cases flow.initialTCPFlags with
      | none => simp
      | some fl => simp [or_four_ne_zero fl]

/-- Processing an outgoing segment that carries a TFO cookie and payload
records its sequence number and payload length and moves the flow to state
1 (tfospider.py lines 96-100). -/
theorem tfoworking_records_cookie_data
    (f : Nat) (rec : TfoRec) (seg : TcpSeg) (r : TfoRet)
    (hout : rec.sp = seg.src_port)
    (hc : tfocookie f seg = some (.ok r)) (ht : r.toBool = true)
    (hd : 0 < (seg.data.length : Int) - (seg.doff * 4 : Int)) :
    tfoworking f rec seg =
      some (.ok ({ rec with
                    tfo_seq := (seg.seq_nbr : Int)
                    tfo_len := (seg.data.length : Int) - (seg.doff * 4 : Int)
                    tfoworking := 1 }, true)) := by
  unfold tfoworking
  rw [hc]
  simp [ht, hout, hd]

/-! ## Claim theorems -/

/-- C1: the option parser is claimed to bounds-check every read and return
"no cookie" on truncated input.  The code does not: on the options region
`[NOP, NOP, NOP, 34]` — a kind-34 option truncated before its length byte —
the read `options[cp+1]` at tfospider.py line 57 indexes past the end of
the buffer and raises IndexError instead of returning "no cookie". -/
theorem tfocookie_truncated_option_raises_indexerror :
    tfocookie 9 ⟨List.replicate 20 0 ++ [1, 1, 1, 34], 6, 0, 0, 0⟩ =
      some (.error .indexError) := rfl

/-- C2: `connect` is claimed to classify every outcome as OK/FAILED/TIMEOUT
with no escaping exception.  `EcnSpider2.connect` instead always raises
AttributeError before attempting any connection: it reads
`self.conn_imeout` (ecnspider.py line 79) while `__init__` only ever
assigns `conn_timeout` (line 73), whatever the job and whatever the socket
layer would have done. -/
theorem ecnConnect_always_raises_attributeError
    (wc ct l4 l6 qp : Nat) (ev : SockRes) :
    ecnConnect (ecnInitAttrs wc ct l4 l6 qp) ev = .error .attributeError := rfl

/-- C3 (counterexample): `EcnSpider2.merge` does not produce a Merged
Record when no matching Flow Record exists — on the unobserved placeholder
the unconditional read `flow.octets` (ecnspider.py line 180) raises
AttributeError and nothing reaches `result_sink`; its `MergedRecord` has no
observed flag at all. -/
theorem ecnMerge_noflow_produces_no_record :
    ecnMerge .noFlow ⟨1, 2, 3, 1, true, 200⟩ = .error .attributeError := rfl

/-- C3 (amended): `TFOSpider.merge` always produces a merged record, and on
the `NO_FLOW` placeholder that record consists of exactly the keys
dip/sp/dp/connstate/tfostate/observed — an explicit observed flag set to
false and no passive byte or packet counters (tfospider.py lines 236-237). -/
theorem tfoMerge_noflow_observed_false_no_counters (res : TfoSpiderRecord) :
    (tfoMerge .noFlow res).map Prod.fst =
      ["dip", "sp", "dp", "connstate", "tfostate", "observed"] ∧
    (tfoMerge .noFlow res).lookup "observed" = some (.boolV false) := by
  constructor <;> rfl

/-- C4: a well-formed experimental kind-254 Fast-Open option (magic tag
present, cookie bytes following) is claimed to count as "cookie present".
On the options region `[NOP, 254, 8, 249, 137, 1, 2, 3]` the parser
instead returns `False`: line 70 of tfospider.py tests `options[0]`
(the first byte of the region, here the NOP) rather than `options[cp]`,
so the 254 branch is skipped and the inverted generic rule returns
"no cookie". -/
theorem tfocookie_wellformed_254_reports_no_cookie :
    tfocookie 9 ⟨List.replicate 20 0 ++ [1, 254, 8, 249, 137, 1, 2, 3], 7, 0, 0, 0⟩ =
      some (.ok .fls) := rfl

/-- C5: for a generic option kind the parser is claimed to skip exactly the
declared length and keep scanning.  On `[2, 4, 5, 180, 34, 6, 1, 2, 3, 4,
0, 0]` — an MSS-like kind-2 length-4 option followed by a kind-34 cookie
option — the generic rule at tfospider.py lines 79-83 is inverted: because
the declared length 4 fits inside the 12-byte buffer it returns `False`
("no cookie") immediately instead of advancing 4 bytes and finding the
cookie; it would advance only when the declared length exceeds the
buffer. -/
theorem tfocookie_generic_option_not_skipped :
    tfocookie 9 ⟨List.replicate 20 0 ++ [2, 4, 5, 180, 34, 6, 1, 2, 3, 4, 0, 0], 8, 0, 0, 0⟩ =
      some (.ok .fls) := rfl

/-- C8: `tupleize_flow` is claimed to discard exactly the non-matching
traffic.  It discards everything: for every flow dictionary and every
configured address pair the result is `None`, because line 143 of
ecnspider.py tests the truthiness of `initialTCPFlags | TCP_RST`, which is
nonzero for every flags value. -/
theorem tupleize_flow_discards_every_flow
    (local_ip4 local_ip6 : Nat) (flow : QofFlowDict) :
    tupleize_flow local_ip4 local_ip6 flow = .ok none := by
  cases h : tupleizeShortCircuit flow with
  | error e => simp [tupleize_flow, h]
  | ok b =>
    cases b with
    | false => exact absurd h (tupleizeShortCircuit_ne_false flow)
    | true => simp [tupleize_flow, h]

/-- Auxiliary: the `take` loop body over a list of indices all below
`count` yields the available prefix and reports whether `next` raised. -/
theorem takeGo_eq (count : Nat) :
    ∀ (l : List Nat), (∀ i ∈ l, i < count) →
    ∀ xs : List Nat,
      takeGo count l xs = (xs.take l.length, decide (xs.length < l.length)) := by
  intro l
  induction l with
  | nil => intro _ xs; simp [takeGo]
  | cons i rest ih =>
    intro hl xs
    have hi : ¬i ≥ count := Nat.not_le.mpr (hl i (by simp))
    cases xs with
    | nil => simp [takeGo, hi]
    | cons x xt =>
      have hrec := ih (fun j hj => hl j (by simp [hj])) xt
      simp [takeGo, hi, hrec, Nat.succ_lt_succ_iff]

/-- C10: `take(count, iterable)` yields exactly the first `count` elements
in order when the iterable has at least `count` elements (raise flag
false), and on a shorter iterable it yields what is available and ends by
raising (`next` on the exhausted iterator) instead of stopping cleanly —
the raise flag is set exactly when the iterable has fewer than `count`
elements. -/
theorem take_yields_prefix_or_raises (count : Nat) (xs : List Nat) :
    take count xs = (xs.take count, decide (xs.length < count)) := by
  have h := takeGo_eq count (List.range count)
    (fun i hi => List.mem_range.mp hi) xs
  simpa [take, List.length_range] using h

/-- C6 (counterexample): the ACK transition is gated on `rec['tfo_seq'] > 0`
(tfospider.py line 102), so a cookie-bearing SYN recorded at sequence
number 0 with payload length 4 followed by an incoming ACK with
acknowledgment number 0 + 4 + 1 = 5 does NOT move the state to ACKED: the
handler returns true and the state stays 1, refuting the claim's universal
quantification over recorded sequence numbers. -/
theorem tfoworking_ack_at_seq_zero_not_acked :
    tfoworking 9 (tfosetup 5000)
        ⟨List.replicate 20 0 ++ [34, 6, 9, 9, 9, 9, 1, 1, 1, 1, 1, 1, 65, 66, 67, 68],
         8, 5000, 0, 0⟩ =
      some (.ok (⟨5000, 0, 4, 1⟩, true)) ∧
    tfoworking 9 ⟨5000, 0, 4, 1⟩ ⟨List.replicate 20 0, 5, 80, 0, 5⟩ =
      some (.ok (⟨5000, 0, 4, 1⟩, true)) := by
  constructor <;> rfl

/-- C6 (amended): for every flow context in which a cookie-bearing outgoing
segment recorded a nonzero sequence number S and payload length L, an
incoming segment whose acknowledgment number equals S + L + 1 (whose own
option parse terminates without raising) moves the state to 2 (ACKED) and
the handler returns false (tfospider.py lines 96-104). -/
theorem tfoworking_ack_transition_acked
    (f1 f2 : Nat) (rec : TfoRec) (seg1 seg2 : TcpSeg) (r1 r2 : TfoRet)
    (hout : rec.sp = seg1.src_port)
    (hc1 : tfocookie f1 seg1 = some (.ok r1)) (ht1 : r1.toBool = true)
    (hd1 : 0 < (seg1.data.length : Int) - (seg1.doff * 4 : Int))
    (hS : 1 ≤ seg1.seq_nbr)
    (hin : ¬rec.sp = seg2.src_port)
    (hc2 : tfocookie f2 seg2 = some (.ok r2))
    (hack : (seg2.ack_nbr : Int) =
      (seg1.seq_nbr : Int) + ((seg1.data.length : Int) - (seg1.doff * 4 : Int)) + 1) :
    tfoworking f1 rec seg1 =
      some (.ok ({ rec with
                    tfo_seq := (seg1.seq_nbr : Int)
                    tfo_len := (seg1.data.length : Int) - (seg1.doff * 4 : Int)
                    tfoworking := 1 }, true)) ∧
    tfoworking f2
        { rec with
            tfo_seq := (seg1.seq_nbr : Int)
            tfo_len := (seg1.data.length : Int) - (seg1.doff * 4 : Int)
            tfoworking := 1 } seg2 =
      some (.ok ({ rec with
                    tfo_seq := (seg1.seq_nbr : Int)
                    tfo_len := (seg1.data.length : Int) - (seg1.doff * 4 : Int)
                    tfoworking := 2 }, false)) := by
  refine ⟨tfoworking_records_cookie_data f1 rec seg1 r1 hout hc1 ht1 hd1, ?_⟩
  unfold tfoworking
  rw [hc2]
  have hpos : (0 : Int) < (seg1.seq_nbr : Int) := by exact_mod_cast hS
  have hnonneg : ¬((seg1.seq_nbr : Int) < 0) := by omega
  simp [hin, hnonneg, hpos, hack]

/-- C6 witness: the spec's concrete scenario with a nonzero sequence
number — outgoing SYN with cookie at sequence 1000, payload length 4, then
an incoming ACK with acknowledgment number 1005 — ends in state 2 (ACKED)
with the handler returning false. -/
theorem tfoworking_ack_transition_acked_witness :
    tfoworking 9 (tfosetup 5000)
        ⟨List.replicate 20 0 ++ [34, 6, 9, 9, 9, 9, 1, 1, 1, 1, 1, 1, 65, 66, 67, 68],
         8, 5000, 1000, 0⟩ =
      some (.ok ({ tfosetup 5000 with
                    tfo_seq := ((1000 : Nat) : Int)
                    tfo_len := ((36 : Nat) : Int) - ((8 : Nat) * 4 : Int)
                    tfoworking := 1 }, true)) ∧
    tfoworking 9
        { tfosetup 5000 with
            tfo_seq := ((1000 : Nat) : Int)
            tfo_len := ((36 : Nat) : Int) - ((8 : Nat) * 4 : Int)
            tfoworking := 1 } ⟨List.replicate 20 0, 5, 80, 0, 1005⟩ =
      some (.ok ({ tfosetup 5000 with
                    tfo_seq := ((1000 : Nat) : Int)
                    tfo_len := ((36 : Nat) : Int) - ((8 : Nat) * 4 : Int)
                    tfoworking := 2 }, false)) :=
  tfoworking_ack_transition_acked 9 9 (tfosetup 5000)
    ⟨List.replicate 20 0 ++ [34, 6, 9, 9, 9, 9, 1, 1, 1, 1, 1, 1, 65, 66, 67, 68],
     8, 5000, 1000, 0⟩
    ⟨List.replicate 20 0, 5, 80, 0, 1005⟩
    (.cookiePair 0 34) .nothing rfl rfl rfl (by decide) (by decide)
    (by decide) rfl (by decide)

/-- C7 (counterexample): after a cookie-bearing SYN recorded sequence 1000
and payload length 4, an outgoing data-carrying retransmission WITHOUT a
cookie at the SAME sequence number 1000 does not trigger the fallback: the
check at tfospider.py line 106 compares against `rec['tfo_seq'] + 1` =
1001, so the recorded sequence/length are NOT cleared to the sentinel, the
record is returned unchanged. -/
theorem tfoworking_retransmit_same_seq_not_cleared :
    tfoworking 9 (tfosetup 5000)
        ⟨List.replicate 20 0 ++ [34, 6, 9, 9, 9, 9, 1, 1, 1, 1, 1, 1, 65, 66, 67, 68],
         8, 5000, 1000, 0⟩ =
      some (.ok (⟨5000, 1000, 4, 1⟩, true)) ∧
    tfoworking 9 ⟨5000, 1000, 4, 1⟩
        ⟨List.replicate 20 0 ++ [65, 66, 67, 68], 5, 5000, 1000, 0⟩ =
      some (.ok (⟨5000, 1000, 4, 1⟩, true)) := by
  constructor <;> rfl

/-- C7 (amended): after a flow context recorded a cookie-bearing outgoing
segment at sequence number S, an outgoing data-carrying segment WITHOUT a
cookie at sequence number S + 1 (the retransmitted payload of the regular
handshake) is treated as fallback: the recorded sequence and length are
cleared to the sentinel -500 and the handler returns true, so the flow
remains tracked (tfospider.py lines 106-109). -/
theorem tfoworking_fallback_at_seq_succ
    (f1 f2 : Nat) (rec : TfoRec) (seg1 seg2 : TcpSeg) (r1 r2 : TfoRet)
    (hout1 : rec.sp = seg1.src_port)
    (hc1 : tfocookie f1 seg1 = some (.ok r1)) (ht1 : r1.toBool = true)
    (hd1 : 0 < (seg1.data.length : Int) - (seg1.doff * 4 : Int))
    (hout2 : rec.sp = seg2.src_port)
    (hc2 : tfocookie f2 seg2 = some (.ok r2)) (ht2 : r2.toBool = false)
    (hd2 : 0 < (seg2.data.length : Int) - (seg2.doff * 4 : Int))
    (hseq : (seg2.seq_nbr : Int) = (seg1.seq_nbr : Int) + 1) :
    tfoworking f1 rec seg1 =
      some (.ok ({ rec with
                    tfo_seq := (seg1.seq_nbr : Int)
                    tfo_len := (seg1.data.length : Int) - (seg1.doff * 4 : Int)
                    tfoworking := 1 }, true)) ∧
    tfoworking f2
        { rec with
            tfo_seq := (seg1.seq_nbr : Int)
            tfo_len := (seg1.data.length : Int) - (seg1.doff * 4 : Int)
            tfoworking := 1 } seg2 =
      some (.ok ({ rec with
                    tfo_seq := (-500 : Int)
                    tfo_len := (-500 : Int)
                    tfoworking := 1 }, true)) := by
  refine ⟨tfoworking_records_cookie_data f1 rec seg1 r1 hout1 hc1 ht1 hd1, ?_⟩
  unfold tfoworking
  rw [hc2]
  have hnonneg : ¬((seg1.seq_nbr : Int) < 0) :=
    Int.not_lt.mpr (Int.natCast_nonneg _)
  simp [hout2, ht2, hd2, hseq, hnonneg]

/-- C7 witness: the spec's concrete scenario — cookie SYN at sequence 1000,
payload length 4, then an outgoing no-cookie data segment at sequence
1001 — clears the recorded sequence/length to -500 and keeps tracking. -/
theorem tfoworking_fallback_at_seq_succ_witness :
    tfoworking 9 (tfosetup 5000)
        ⟨List.replicate 20 0 ++ [34, 6, 9, 9, 9, 9, 1, 1, 1, 1, 1, 1, 65, 66, 67, 68],
         8, 5000, 1000, 0⟩ =
      some (.ok ({ tfosetup 5000 with
                    tfo_seq := ((1000 : Nat) : Int)
                    tfo_len := ((36 : Nat) : Int) - ((8 : Nat) * 4 : Int)
                    tfoworking := 1 }, true)) ∧
    tfoworking 9
        { tfosetup 5000 with
            tfo_seq := ((1000 : Nat) : Int)
            tfo_len := ((36 : Nat) : Int) - ((8 : Nat) * 4 : Int)
            tfoworking := 1 }
        ⟨List.replicate 20 0 ++ [65, 66, 67, 68], 5, 5000, 1001, 0⟩ =
      some (.ok ({ tfosetup 5000 with
                    tfo_seq := (-500 : Int)
                    tfo_len := (-500 : Int)
                    tfoworking := 1 }, true)) :=
  tfoworking_fallback_at_seq_succ 9 9 (tfosetup 5000)
    ⟨List.replicate 20 0 ++ [34, 6, 9, 9, 9, 9, 1, 1, 1, 1, 1, 1, 65, 66, 67, 68],
     8, 5000, 1000, 0⟩
    ⟨List.replicate 20 0 ++ [65, 66, 67, 68], 5, 5000, 1001, 0⟩
    (.cookiePair 0 34) .nothing rfl rfl rfl (by decide) rfl rfl rfl
    (by decide) (by decide)

/-- Auxiliary: if every poll during the window yields only receipts (or an
unrecognized value), `_fetch_result`'s loop runs out its time budget and
ends in the `raise TimeoutException` at resolver.py line 81. -/
theorem fetchGo_all_receipts_times_out (env : FetchEnv)
    (h : ∀ i, env.poll i = .receipt ∨ env.poll i = .other) :
    ∀ k i lu, (fetchGo env k i lu).1 = .raiseTimeout := by
  intro k
  induction k with
  | zero => intro i lu; rfl
  | succ k ih =>
    intro i lu
    rcases h i with hp | hp <;> simp [fetchGo, hp, ih]

/-- Auxiliary: successive successful capability refreshes recorded by
`_fetch_result` are each gated by `self.last_updated + 5 < time.time()`
(resolver.py line 55) and each updates `self.last_updated` (line 58), so
starting from `lu` the recorded refresh times form a chain in which each
is more than 5 greater than its predecessor. -/
theorem fetchGo_refresh_throttled (env : FetchEnv) :
    ∀ k i lu, List.Chain (fun a b => a + 5 < b) lu (fetchGo env k i lu).2 := by
  intro k
  induction k with
  | zero => intro i lu; exact List.Chain.nil
  | succ k ih =>
    intro i lu
    simp only [fetchGo]
    by_cases hr : (decide (lu + 5 < env.clock i) && env.refreshOk i) = true
    · have hlt : lu + 5 < env.clock i := of_decide_eq_true (Bool.and_elim_left hr)
      rw [if_pos hr]
      cases hp : env.poll i with
      | exc => exact List.Chain.cons hlt List.Chain.nil
      | result addrs => exact List.Chain.cons hlt List.Chain.nil
      | receipt => exact List.Chain.cons hlt (by simpa [hr] using ih (i+1) (env.clock i))
      | other => exact List.Chain.cons hlt (by simpa [hr] using ih (i+1) (env.clock i))
    · rw [if_neg hr]
      cases hp : env.poll i with
      | exc => exact List.Chain.nil
      | result addrs => exact List.Chain.nil
      | receipt => simpa [hr] using ih (i+1) lu
      | other => simpa [hr] using ih (i+1) lu

/-- C9: `_fetch_result` refreshes capabilities at most once per elapsed
5 seconds — the successful refresh timestamps it records form a chain in
which consecutive values (seeded by the stored `last_updated`) are each
more than 5 apart — and when every poll within the `request_timeout`
window returns only a receipt (or an unrecognized value, i.e. no Result
and no Exception), the call ends by raising TimeoutException rather than
returning normally. -/
theorem fetch_result_timeout_raise_and_throttle
    (env : FetchEnv) (request_timeout lu0 : Nat)
    (h : ∀ i, env.poll i = .receipt ∨ env.poll i = .other) :
    (fetch_result env request_timeout lu0).1 = .raiseTimeout ∧
    List.Chain (fun a b => a + 5 < b) lu0 (fetch_result env request_timeout lu0).2 :=
  ⟨fetchGo_all_receipts_times_out env h _ _ _,
   fetchGo_refresh_throttled env _ _ _⟩

/-- C9 witness: a concrete run — clock advancing 6 seconds per iteration,
every refresh succeeding, every poll a receipt, `request_timeout = 12` —
raises TimeoutException and records throttled refresh times. -/
theorem fetch_result_timeout_raise_and_throttle_witness :
    (fetch_result ⟨fun i => 6 * i + 6, fun _ => true, fun _ => .receipt⟩ 12 0).1 =
      .raiseTimeout ∧
    List.Chain (fun a b => a + 5 < b) 0
      (fetch_result ⟨fun i => 6 * i + 6, fun _ => true, fun _ => .receipt⟩ 12 0).2 :=
  fetch_result_timeout_raise_and_throttle
    ⟨fun i => 6 * i + 6, fun _ => true, fun _ => .receipt⟩ 12 0
    (fun _ => Or.inl rfl)
